import Mathlib

/-!
Verification of `staking_rates.py` (CryptoMAX).

Shallow embedding: decoded JSON payloads are modelled by `Val` (dicts as
ordered association lists, which matches Python's insertion-ordered dicts),
Python `None` by `Val.null`, Python floats by exact rationals (`ℚ`), and a
raised exception by the `Except` error channel.  Each provider adapter
`fetch_*` is a function from the decoded payload to
`Except PyError (List RateRecord)`: every adapter in the source raises only
before its first `yield`, so flattening the lazy generator to a list is
faithful.  The HTTP layer (`_fetch_json`) is out of scope of the claims and is
modelled as an environment mapping each provider to either a decoded payload
or an error.
-/

/-- Decoded JSON value / Python object, as produced by `response.json()`.
Python `None` (JSON `null`) is `null`; numbers are exact rationals. -/
inductive Val where
  | null
  | bool (b : Bool)
  | num (q : ℚ)
  | str (s : String)
  | list (items : List Val)
  | dict (kvs : List (String × Val))

/-- Exceptions that the modelled code can raise.  `rateFetch` is the
script's own `RateFetchError`; the others are builtin Python exceptions. -/
inductive PyError where
  | rateFetch (msg : String)
  | typeError
  | valueError
  | attributeError
deriving DecidableEq

/-- Normalized representation of a staking rate (`RateRecord` dataclass). -/
structure RateRecord where
  provider : String
  network : String
  rate : ℚ
  metric : String
  source_url : String
  raw : Val

/-- Python truthiness of a value (`bool(v)`). -/
def truthy : Val → Bool
  | .null => false
  | .bool b => b
  | .num q => decide (q ≠ 0)
  | .str s => !s.isEmpty
  | .list items => !items.isEmpty
  | .dict kvs => !kvs.isEmpty

/-- `key in mapping` for a Python dict. -/
def hasKey (kvs : List (String × Val)) (k : String) : Bool :=
  (kvs.lookup k).isSome

/-- `mapping.get(key)` for a Python dict: the value when the key is present,
Python `None` (here `Val.null`) otherwise. -/
def getv (kvs : List (String × Val)) (k : String) : Val :=
  (kvs.lookup k).getD .null

/-- Digit string to number, e.g. `['4','2'] ↦ 42`. -/
def digitsVal (cs : List Char) : ℚ :=
  cs.foldl (fun a c => a * 10 + ((c.toNat - 48 : ℕ) : ℚ)) 0

/-- Parse an unsigned decimal literal `digits[.digits]`, `.digits` or
`digits.` as a rational. -/
def parseUnsigned : List Char → Option ℚ
  | cs =>
    let intPart := cs.takeWhile Char.isDigit
    let rest := cs.dropWhile Char.isDigit
    match rest with
    | [] => if intPart.isEmpty then none else some (digitsVal intPart)
    | '.' :: frac =>
      if frac.all Char.isDigit && !(intPart.isEmpty && frac.isEmpty) then
        some (digitsVal intPart + digitsVal frac / ((10 : ℚ) ^ frac.length))
      else none
    | _ => none

/-- Model of Python `float(s)` on a string: an optionally signed decimal
literal.  (Exponents, `inf`/`nan` and surrounding whitespace, which Python
also accepts, are not modelled; no claim depends on them.) -/
def parseFloat : String → Option ℚ
  | s =>
    match s.toList with
    | '-' :: rest => (parseUnsigned rest).map Neg.neg
    | '+' :: rest => parseUnsigned rest
    | cs => parseUnsigned cs

/-- Model of Python `float(v)`: numbers and booleans convert, strings parse
or raise `ValueError`, everything else raises `TypeError`. -/
def pyFloatE : Val → Except PyError ℚ
  | .null => .error .typeError
  | .bool b => .ok (if b then 1 else 0)
  | .num q => .ok q
  | .str s =>
    match parseFloat s with
    | some q => .ok q
    | none => .error .valueError
  | .list _ => .error .typeError
  | .dict _ => .error .typeError

/-- `float(v)` with `TypeError`/`ValueError` both treated as failure, for the
call sites that wrap the conversion in `try/except (TypeError, ValueError)`. -/
def pyFloat (v : Val) : Option ℚ :=
  (pyFloatE v).toOption

/-- Model of Python `str(v)`.  Exact on strings, `None` and booleans — the
only cases the adapters can reach with a claim-relevant result; the textual
repr of numbers and containers is not modelled precisely. -/
def pyStr : Val → String
  | .str s => s
  | .null => "None"
  | .bool b => if b then "True" else "False"
  | .num q => if q.den = 1 then toString q.num ++ ".0" else "<float>"
  | .list _ => "<list>"
  | .dict _ => "<dict>"

/-- One step of Python `str.title()`: uppercase a letter that follows a
non-letter, lowercase a letter that follows a letter. -/
def pyTitleAux : Bool → List Char → List Char
  | _, [] => []
  | prevAlpha, c :: cs =>
    (if c.isAlpha then (if prevAlpha then c.toLower else c.toUpper) else c)
      :: pyTitleAux c.isAlpha cs

/-- Model of Python `str.title()`. -/
def pyTitle (s : String) : String :=
  ⟨pyTitleAux false s.toList⟩

/-- Model of Python `str.upper()` (ASCII-faithful). -/
def pyUpper (s : String) : String :=
  s.map Char.toUpper

/-- Python `a or b`: `a` when truthy, else `b`. -/
def pyOr (a b : Val) : Val :=
  if truthy a then a else b

/-- `_normalize_percentage(raw_value)` from the source: `None` for `None`
and unconvertible values, `None` for values `≤ 0`, `value * 100` for values
in `(0, 1]`, the value itself otherwise. -/
def _normalize_percentage (raw_value : Val) : Option ℚ :=
  match raw_value with
  | .null => none
  | v =>
    match pyFloat v with
    | none => none
    | some value =>
      if value ≤ 0 then none
      else if value ≤ 1 then some (value * 100)
      else some value

/-- `_pick_first(mapping, keys)` from the source: the value of the first key
of `keys` that is a member of `mapping` (`key in mapping`), Python `None`
(here `Val.null`) when no key matches.  As in Python, a stored `None`/null
value is returned as-is and is thus indistinguishable from absence. -/
def _pick_first (mapping : List (String × Val)) : List String → Val
  | [] => .null
  | k :: ks => if hasKey mapping k then getv mapping k else _pick_first mapping ks

/-- `STABLECOIN_KEYWORDS` from the source (a Python `set`; modelled as the
list of its elements — only membership is ever used). -/
def STABLECOIN_KEYWORDS : List String :=
  ["USDC", "USDT", "DAI", "BUSD", "TUSD", "USDP", "GUSD",
   "USDD", "USTC", "EURT", "FRAX", "EURS", "LUSD"]

def LIDO_URL : String := "https://stake.lido.fi/api/networks"
def ROCKET_POOL_URL : String := "https://api.rocketpool.net/api/apr"
def KRAKEN_URL : String := "https://api.kraken.com/0/public/Staking/Assets"
def COINBASE_URL : String := "https://api.coinbase.com/v2/staking/products"
def CRYPTO_COM_URL : String := "https://crypto.com/earn/api/v2/products"
def KUCOIN_URL : String :=
  "https://www.kucoin.com/_api/earning/earn/product/list?page=1&pageSize=200&status=ALL&type=ALL"
def BINANCE_URL : String := "https://www.binance.com/bapi/earn/v2/friendly/pos/product/list"
def NEXO_URL : String := "https://platform.nexo.io/api/v2/earn/rates"

/-- Loop body of `fetch_lido` for one `(network_name, details)` item of the
networks dict: `None` models `continue`. -/
def lidoEntry (item : String × Val) : Option RateRecord :=
  match item.2 with
  | .dict details =>
    let metric_name := if hasKey details "apy" then "apy" else "apr"
    let raw_rate := getv details metric_name
    match pyFloat raw_rate with
    | none => none
    | some rate_value =>
      some { provider := "Lido"
             network := pyTitle (pyStr (pyOr (getv details "displayName") (.str item.1)))
             rate := rate_value
             metric := metric_name
             source_url := LIDO_URL
             raw := .dict details }
  | _ => none

/-- `networks = payload.get("data") or payload` step of `fetch_lido`;
`payload.get` raises `AttributeError` when the payload is not a dict. -/
def lidoNetworks (payload : Val) : Except PyError Val :=
  match payload with
  | .dict kvs => .ok (pyOr (getv kvs "data") payload)
  | _ => .error .attributeError

/-- `fetch_lido` applied to a decoded payload. -/
def fetch_lido (payload : Val) : Except PyError (List RateRecord) :=
  match lidoNetworks payload with
  | .error e => .error e
  | .ok networks =>
    match networks with
    | .dict nets => .ok (nets.filterMap lidoEntry)
    | _ => .error (.rateFetch "Unexpected Lido payload format")

/-- `data = payload.get("data") if isinstance(payload, dict) else None`. -/
def dataField (payload : Val) (key : String) : Val :=
  match payload with
  | .dict kvs => getv kvs key
  | _ => .null

/-- `fetch_rocket_pool` applied to a decoded payload.  Note the truthiness
fallback `data.get("staking") or data.get("total")` and the unguarded
`float(...)` call, whose failure escapes the adapter. -/
def fetch_rocket_pool (payload : Val) : Except PyError (List RateRecord) :=
  match dataField payload "data" with
  | .dict data =>
    let staking_rate := pyOr (getv data "staking") (getv data "total")
    match staking_rate with
    | .null => .error (.rateFetch "Rocket Pool response missing staking rate")
    | v =>
      match pyFloatE v with
      | .error e => .error e
      | .ok q =>
        .ok [{ provider := "Rocket Pool", network := "Ethereum", rate := q,
               metric := "apr", source_url := ROCKET_POOL_URL, raw := .dict data }]
  | _ => .error (.rateFetch "Unexpected Rocket Pool payload format")

/-- Loop body of `fetch_kraken` for one `(asset_code, details)` item. -/
def krakenEntry (item : String × Val) : Option RateRecord :=
  match item.2 with
  | .dict details =>
    let network := pyOr (getv details "staking_asset") (.str item.1)
    let apr := pyOr (getv details "apy") (pyOr (getv details "apr") (getv details "reward_apr"))
    match apr with
    | .null => none
    | v =>
      match pyFloat v with
      | none => none
      | some rate_value =>
        some { provider := "Kraken", network := pyStr network, rate := rate_value,
               metric := "apr", source_url := KRAKEN_URL, raw := .dict details }
  | _ => none

/-- `fetch_kraken` applied to a decoded payload. -/
def fetch_kraken (payload : Val) : Except PyError (List RateRecord) :=
  match dataField payload "result" with
  | .dict result => .ok (result.filterMap krakenEntry)
  | _ => .error (.rateFetch "Unexpected Kraken payload format")

/-- Shared loop body of the `_normalize_percentage`-based adapters: resolve
the rate across `rate_keys`, normalize it, resolve the label across
`label_keys`, and build the record; `None` models `continue`. -/
def catalogEntry (provider : String) (metric : String) (url : String)
    (rate_keys label_keys : List String) (v : Val) : Option RateRecord :=
  match v with
  | .dict product =>
    match _normalize_percentage (_pick_first product rate_keys) with
    | none => none
    | some rate_value =>
      let network := _pick_first product label_keys
      some { provider := provider
             network := pyStr (pyOr network (.str "Unknown"))
             rate := rate_value
             metric := metric
             source_url := url
             raw := .dict product }
  | _ => none

def coinbaseEntry : Val → Option RateRecord :=
  catalogEntry "Coinbase" "apy" COINBASE_URL
    ["apy", "apr", "rewards_apy", "estimated_apy", "rewardRate", "rewardsRate"]
    ["asset_name", "asset", "name", "asset_symbol"]

/-- `fetch_coinbase` applied to a decoded payload. -/
def fetch_coinbase (payload : Val) : Except PyError (List RateRecord) :=
  match dataField payload "data" with
  | .list products => .ok (products.filterMap coinbaseEntry)
  | _ => .error (.rateFetch "Unexpected Coinbase payload format")

def cryptoComEntry : Val → Option RateRecord :=
  catalogEntry "Crypto.com" "apy" CRYPTO_COM_URL
    ["rate", "apy", "apr", "reward_rate"]
    ["displayName", "asset", "symbol", "name"]

/-- `fetch_crypto_com` applied to a decoded payload. -/
def fetch_crypto_com (payload : Val) : Except PyError (List RateRecord) :=
  match dataField (dataField payload "data") "items" with
  | .list products => .ok (products.filterMap cryptoComEntry)
  | _ => .error (.rateFetch "Unexpected Crypto.com payload format")

def kucoinEntry : Val → Option RateRecord :=
  catalogEntry "KuCoin" "apr" KUCOIN_URL
    ["apr", "apy", "yieldRate", "rate"]
    ["currency", "name", "displayName"]

/-- `fetch_kucoin` applied to a decoded payload. -/
def fetch_kucoin (payload : Val) : Except PyError (List RateRecord) :=
  match dataField (dataField payload "data") "items" with
  | .list products => .ok (products.filterMap kucoinEntry)
  | _ => .error (.rateFetch "Unexpected KuCoin payload format")

def binanceEntry : Val → Option RateRecord :=
  catalogEntry "Binance" "apr" BINANCE_URL
    ["configAnnualInterestRate", "apr", "apy", "maxApy"]
    ["asset", "productName", "displayName"]

/-- `fetch_binance` applied to a decoded payload.  Note that
`data.get("result") or data.get("data") or []` substitutes an empty list
when both keys are absent or falsy. -/
def fetch_binance (payload : Val) : Except PyError (List RateRecord) :=
  match dataField payload "data" with
  | .dict data =>
    match pyOr (getv data "result") (pyOr (getv data "data") (.list [])) with
    | .list ps => .ok (ps.filterMap binanceEntry)
    | _ => .error (.rateFetch "Unexpected Binance product payload")
  | _ => .error (.rateFetch "Unexpected Binance payload format")

def nexoEntry : Val → Option RateRecord :=
  catalogEntry "Nexo" "apy" NEXO_URL
    ["rate", "apy", "apr", "baseRate"]
    ["currency", "symbol", "name"]

/-- `fetch_nexo` applied to a decoded payload. -/
def fetch_nexo (payload : Val) : Except PyError (List RateRecord) :=
  match dataField (dataField payload "data") "rates" with
  | .list products => .ok (products.filterMap nexoEntry)
  | _ => .error (.rateFetch "Unexpected Nexo payload format")

/-- The ordered provider registry `PROVIDERS` (dict modelled as an ordered
association list, as iterated by `collect_rates`). -/
def PROVIDERS : List (String × (Val → Except PyError (List RateRecord))) :=
  [("lido", fetch_lido),
   ("rocket_pool", fetch_rocket_pool),
   ("kraken", fetch_kraken),
   ("coinbase", fetch_coinbase),
   ("crypto_com", fetch_crypto_com),
   ("kucoin", fetch_kucoin),
   ("binance", fetch_binance),
   ("nexo", fetch_nexo)]

/-- An HTTP environment for one run: what `_fetch_json` delivers to each
provider — either a decoded payload or a transport/HTTP/decode error. -/
def Env : Type := String → Except PyError Val

/-- One `fetcher()` call of the aggregation loop: the HTTP fetch followed by
the adapter's processing of the decoded payload. -/
def runProvider (env : Env) (p : String × (Val → Except PyError (List RateRecord))) :
    Except PyError (List RateRecord) :=
  (env p.1).bind p.2

/-- The body of `collect_rates` over an arbitrary registry slice: extend the
accumulator on success, swallow the exception (after the stderr report, which
is not modelled) on failure. -/
def collectLoop (env : Env) (providers : List (String × (Val → Except PyError (List RateRecord))))
    (acc : List RateRecord) : List RateRecord :=
  match providers with
  | [] => acc
  | p :: rest =>
    match runProvider env p with
    | .ok recs => collectLoop env rest (acc ++ recs)
    | .error _ => collectLoop env rest acc

/-- `collect_rates()` from the source, as a function of the HTTP environment. -/
def collect_rates (env : Env) : List RateRecord :=
  collectLoop env PROVIDERS []

/-- `_is_stablecoin_network(name)` from the source: some stablecoin keyword
is a substring of the upper-cased name. -/
def _is_stablecoin_network (name : String) : Bool :=
  STABLECOIN_KEYWORDS.any fun keyword => decide (keyword.toList <:+: (pyUpper name).toList)

/-- `filter_low_risk(records)` from the source. -/
def filter_low_risk (records : List RateRecord) : List RateRecord :=
  records.filter fun record => _is_stablecoin_network record.network

theorem normalizePercentage_eq (v : Val) :
    _normalize_percentage v =
      match pyFloat v with
      | none => none
      | some value =>
        if value ≤ 0 then none else if value ≤ 1 then some (value * 100) else some value := by
  cases v <;> rfl

theorem _normalize_percentage_pos (v : Val) (q : ℚ)
    (h : _normalize_percentage v = some q) : 0 < q := by
  rw [normalizePercentage_eq] at h
  cases hf : pyFloat v with
  | none => rw [hf] at h; exact absurd h (by simp)
  | some value =>
    rw [hf] at h
    simp only at h
    split_ifs at h with h0 h1
    · push_neg at h0
      rw [Option.some_inj] at h
      subst h
      exact mul_pos h0 (by norm_num)
    · push_neg at h0
      rw [Option.some_inj] at h
      subst h
      exact h0

theorem catalogEntry_pos (provider metric url : String) (rate_keys label_keys : List String)
    (v : Val) (r : RateRecord)
    (h : catalogEntry provider metric url rate_keys label_keys v = some r) : 0 < r.rate := by
  unfold catalogEntry at h
  split at h
  · split at h
    · exact absurd h (by simp)
    · cases h
      exact _normalize_percentage_pos _ _ (by assumption)
  · exact absurd h (by simp)

theorem fetch_coinbase_ok (payload : Val) (recs : List RateRecord)
    (h : fetch_coinbase payload = .ok recs) :
    ∃ ps : List Val, recs = ps.filterMap coinbaseEntry := by
  unfold fetch_coinbase at h
  split at h
  · cases h; exact ⟨_, rfl⟩
  · exact absurd h (by simp)

theorem fetch_crypto_com_ok (payload : Val) (recs : List RateRecord)
    (h : fetch_crypto_com payload = .ok recs) :
    ∃ ps : List Val, recs = ps.filterMap cryptoComEntry := by
  unfold fetch_crypto_com at h
  split at h
  · cases h; exact ⟨_, rfl⟩
  · exact absurd h (by simp)

theorem fetch_kucoin_ok (payload : Val) (recs : List RateRecord)
    (h : fetch_kucoin payload = .ok recs) :
    ∃ ps : List Val, recs = ps.filterMap kucoinEntry := by
  unfold fetch_kucoin at h
  split at h
  · cases h; exact ⟨_, rfl⟩
  · exact absurd h (by simp)

theorem fetch_binance_ok (payload : Val) (recs : List RateRecord)
    (h : fetch_binance payload = .ok recs) :
    ∃ ps : List Val, recs = ps.filterMap binanceEntry := by
  unfold fetch_binance at h
  split at h
  · split at h
    · cases h; exact ⟨_, rfl⟩
    · exact absurd h (by simp)
  · exact absurd h (by simp)

theorem fetch_nexo_ok (payload : Val) (recs : List RateRecord)
    (h : fetch_nexo payload = .ok recs) :
    ∃ ps : List Val, recs = ps.filterMap nexoEntry := by
  unfold fetch_nexo at h
  split at h
  · cases h; exact ⟨_, rfl⟩
  · exact absurd h (by simp)

theorem collectLoop_eq (env : Env)
    (providers : List (String × (Val → Except PyError (List RateRecord))))
    (acc : List RateRecord) :
    collectLoop env providers acc =
      acc ++ (providers.filterMap fun p => (runProvider env p).toOption).flatten := by
  induction providers generalizing acc with
  | nil => simp [collectLoop]
  | cons p rest ih =>
    unfold collectLoop
    cases h : runProvider env p with
    | ok recs => simp [h, ih, Except.toOption]
    | error e => simp [h, ih, Except.toOption]

theorem filterMap_length_set_ge {α β : Type} (f : α → Option β) (l : List α) (i : ℕ) (e : α)
    (h : f e = none) :
    (l.filterMap f).length ≤ ((l.set i e).filterMap f).length + 1 := by
  induction l generalizing i with
  | nil => simp
  | cons a as ih =>
    cases i with
    | zero =>
      simp only [List.set_cons_zero, List.filterMap_cons, h]
      cases hf : f a
      · simp only [hf]; exact Nat.le_succ _
      · simp [hf]
    | succ n =>
      simp only [List.set_cons_succ, List.filterMap_cons]
      cases hf : f a
      · exact ih n
      · simpa using ih n

theorem filterMap_length_insertIdx_ge {α β : Type} (f : α → Option β) (l : List α) (i : ℕ) (e : α)
    (h : f e = none) :
    (l.filterMap f).length ≤ ((List.insertIdx i e l).filterMap f).length := by
  induction l generalizing i with
  | nil =>
    cases i with
    | zero => simp
    | succ n => simp [List.insertIdx_succ_nil]
  | cons a as ih =>
    cases i with
    | zero => simp [List.insertIdx_zero, List.filterMap_cons, h]
    | succ n =>
      simp only [List.insertIdx_succ_cons, List.filterMap_cons]
      cases hf : f a
      · exact ih n
      · simpa using ih n

/-- C1 (counterexample): the claim says every adapter silently discards an
entry whose rate parses to zero instead of emitting it, but `fetch_lido`
performs no positivity check: the payload
`{"data": {"eth": {"apy": 0}}}` makes it emit a record with `rate = 0`. -/
theorem C1_lido_emits_zero_rate_counterexample :
    fetch_lido (.dict [("data", .dict [("eth", .dict [("apy", .num 0)])])]) =
      .ok [{ provider := "Lido", network := "Eth", rate := 0, metric := "apy",
             source_url := LIDO_URL, raw := .dict [("apy", .num 0)] }] := rfl

/-- C1 (amended): the strict-positivity invariant holds exactly for the five
adapters that route rates through `_normalize_percentage` — Coinbase,
Crypto.com, KuCoin, Binance and Nexo: whenever one of them succeeds, every
record it yields has a strictly positive rate (zero/negative/unparseable
entries are discarded).  Lido, Kraken and Rocket Pool convert with a bare
`float(...)` and can emit zero or negative rates. -/
theorem C1_normalized_adapters_positive_rates (payload : Val) (recs : List RateRecord)
    (r : RateRecord)
    (h : fetch_coinbase payload = .ok recs ∨ fetch_crypto_com payload = .ok recs ∨
         fetch_kucoin payload = .ok recs ∨ fetch_binance payload = .ok recs ∨
         fetch_nexo payload = .ok recs)
    (hr : r ∈ recs) : 0 < r.rate := by
  have hmem : ∀ (entry : Val → Option RateRecord) (ps : List Val),
      (∀ v r', entry v = some r' → 0 < r'.rate) → r ∈ ps.filterMap entry → 0 < r.rate := by
    intro entry ps hpos hin
    obtain ⟨v, _, hv⟩ := List.mem_filterMap.mp hin
    exact hpos v r hv
  rcases h with h | h | h | h | h
  · obtain ⟨ps, rfl⟩ := fetch_coinbase_ok _ _ h
    exact hmem _ ps (fun v r' => catalogEntry_pos _ _ _ _ _ v r') hr
  · obtain ⟨ps, rfl⟩ := fetch_crypto_com_ok _ _ h
    exact hmem _ ps (fun v r' => catalogEntry_pos _ _ _ _ _ v r') hr
  · obtain ⟨ps, rfl⟩ := fetch_kucoin_ok _ _ h
    exact hmem _ ps (fun v r' => catalogEntry_pos _ _ _ _ _ v r') hr
  · obtain ⟨ps, rfl⟩ := fetch_binance_ok _ _ h
    exact hmem _ ps (fun v r' => catalogEntry_pos _ _ _ _ _ v r') hr
  · obtain ⟨ps, rfl⟩ := fetch_nexo_ok _ _ h
    exact hmem _ ps (fun v r' => catalogEntry_pos _ _ _ _ _ v r') hr

/-- C1 (witness): the amended theorem applied to a concrete Coinbase payload
`{"data": [{"apy": 5}]}`, whose single record has the positive rate 5. -/
theorem C1_normalized_adapters_positive_rates_witness :
    0 < ({ provider := "Coinbase", network := "Unknown", rate := 5, metric := "apy",
           source_url := COINBASE_URL, raw := .dict [("apy", .num 5)] } : RateRecord).rate :=
  C1_normalized_adapters_positive_rates
    (.dict [("data", .list [.dict [("apy", .num 5)]])])
    [{ provider := "Coinbase", network := "Unknown", rate := 5, metric := "apy",
       source_url := COINBASE_URL, raw := .dict [("apy", .num 5)] }]
    _ (Or.inl rfl) (List.mem_singleton.mpr rfl)

/-- C2: `_normalize_percentage(v)` is `None` when `v` does not convert to a
number, and for a converted value `q` it is `None` when `q ≤ 0`, `q * 100`
when `0 < q ≤ 1`, and `q` unchanged when `q > 1`. -/
theorem C2_normalize_percentage_spec (v : Val) :
    (pyFloat v = none → _normalize_percentage v = none) ∧
    (∀ q : ℚ, pyFloat v = some q →
      (q ≤ 0 → _normalize_percentage v = none) ∧
      (0 < q → q ≤ 1 → _normalize_percentage v = some (q * 100)) ∧
      (1 < q → _normalize_percentage v = some q)) := by
  constructor
  · intro h
    rw [normalizePercentage_eq, h]
  · intro q hq
    rw [normalizePercentage_eq, hq]
    dsimp only
    refine ⟨fun hle => by simp [hle], fun hpos hle1 => ?_, fun hgt => ?_⟩
    · rw [if_neg (by linarith), if_pos hle1]
    · rw [if_neg (by linarith), if_neg (by linarith)]

/-- C2 (witness): at `v = 1/2` the map returns `50`. -/
theorem C2_normalize_percentage_spec_witness :
    _normalize_percentage (.num (1/2)) = some ((1/2 : ℚ) * 100) :=
  ((C2_normalize_percentage_spec (.num (1/2))).2 (1/2) rfl).2.1 (by norm_num) (by norm_num)

/-- C3: `collect_rates` is a total function of the per-provider HTTP
outcomes (an adapter failure is swallowed, never propagated), its output is
the concatenation, in provider-registration order, of the record lists of
exactly the succeeding providers, and a run in which every provider fails
returns the empty list. -/
theorem C3_collect_rates_fault_isolation (env : Env) :
    collect_rates env =
      (PROVIDERS.filterMap fun p => (runProvider env p).toOption).flatten ∧
    ((∀ p ∈ PROVIDERS, ∃ e, runProvider env p = .error e) → collect_rates env = []) := by
  have hmain : collect_rates env =
      (PROVIDERS.filterMap fun p => (runProvider env p).toOption).flatten := by
    rw [collect_rates, collectLoop_eq]
    simp
  refine ⟨hmain, fun hall => ?_⟩
  rw [hmain]
  have : (PROVIDERS.filterMap fun p => (runProvider env p).toOption) = [] := by
    rw [List.filterMap_eq_nil_iff]
    intro p hp
    obtain ⟨e, he⟩ := hall p hp
    rw [he]
    rfl
  rw [this]
  rfl

/-- C3 (witness): the theorem applied to the environment in which every HTTP
fetch fails; the aggregate is empty rather than an error. -/
theorem C3_collect_rates_fault_isolation_witness :
    collect_rates (fun _ => .error .typeError) = [] :=
  (C3_collect_rates_fault_isolation (fun _ => .error .typeError)).2
    (fun _ _ => ⟨.typeError, rfl⟩)

/-- C4 (counterexample): the claim says a Binance payload whose
`data.result`/`data.data` list is absent fails with `RateFetchError`, but on
`{"data": {}}` the source substitutes the empty list
(`data.get("result") or data.get("data") or []`) and yields zero records
without any error. -/
theorem C4_binance_missing_container_counterexample :
    fetch_binance (.dict [("data", .dict [])]) = .ok [] := rfl

/-- C4 (amended): a malformed top-level container is fatal as claimed for
Rocket Pool (a `data` dict whose `staking` is falsy and whose `total` is
absent raises `RateFetchError`), and for Binance a truthy non-list
`data.result` raises `RateFetchError`; but when both `data.result` and
`data.data` are absent or falsy, Binance falls back to an empty list and
yields zero records silently instead of failing. -/
theorem C4_container_shape_checks (data : List (String × Val)) :
    (truthy (getv data "staking") = false → getv data "total" = .null →
      fetch_rocket_pool (.dict [("data", .dict data)]) =
        .error (.rateFetch "Rocket Pool response missing staking rate")) ∧
    (truthy (getv data "result") = false → truthy (getv data "data") = false →
      fetch_binance (.dict [("data", .dict data)]) = .ok []) ∧
    (∀ kvs, getv data "result" = .dict kvs → kvs ≠ [] →
      fetch_binance (.dict [("data", .dict data)]) =
        .error (.rateFetch "Unexpected Binance product payload")) := by
  have hdf : ∀ key : String, dataField (.dict [(key, .dict data)]) key = .dict data := by
    intro key
    simp [dataField, getv, List.lookup]
  refine ⟨fun h1 h2 => ?_, fun h1 h2 => ?_, fun kvs h1 h2 => ?_⟩
  · rw [fetch_rocket_pool.eq_def, hdf "data"]
    simp [pyOr, h1, h2]
  · rw [fetch_binance.eq_def, hdf "data"]
    simp [pyOr, h1, h2]
  · rw [fetch_binance.eq_def, hdf "data"]
    simp [pyOr, h1, truthy, h2]

/-- C4 (witness): the amended theorem at the concrete Rocket Pool payload
`{"data": {}}` (the spec's end-to-end scenario) and at the concrete Binance
payload `{"data": {"result": {"a": null}}}`. -/
theorem C4_container_shape_checks_witness :
    fetch_rocket_pool (.dict [("data", .dict [])]) =
      .error (.rateFetch "Rocket Pool response missing staking rate") ∧
    fetch_binance (.dict [("data", .dict [("result", .dict [("a", .null)])])]) =
      .error (.rateFetch "Unexpected Binance product payload") :=
  ⟨(C4_container_shape_checks []).1 rfl rfl,
   (C4_container_shape_checks [("result", .dict [("a", .null)])]).2.2
     [("a", .null)] rfl (by simp)⟩

/-- C5 (counterexample): the claim says `_pick_first` returns `None` if and
only if no candidate key is present, but a key stored with the value
`null`/`None` is present and still produces `None`, exactly as in Python
where the stored `None` is indistinguishable from absence. -/
theorem C5_pick_first_null_value_counterexample :
    _pick_first [("apy", Val.null)] ["apy"] = Val.null ∧
    hasKey [("apy", Val.null)] "apy" = true := ⟨rfl, rfl⟩

/-- C5 (amended): `_pick_first(m, k)` returns the stored value of the
earliest key of `k` that is a member of `m` (presence is key membership, not
truthiness), and returns `None` when no key of `k` is present; the converse
fails only in that a present key whose stored value is `null`/`None` also
yields `None`. -/
theorem C5_pick_first_spec (m : List (String × Val)) (keys : List String) :
    ((∀ k ∈ keys, hasKey m k = false) → _pick_first m keys = .null) ∧
    (∀ k : String, keys.find? (fun k => hasKey m k) = some k →
      _pick_first m keys = getv m k) := by
  induction keys with
  | nil => exact ⟨fun _ => rfl, fun k hk => by simp [List.find?] at hk⟩
  | cons k0 ks ih =>
    constructor
    · intro hall
      have h0 := hall k0 (List.mem_cons_self k0 ks)
      rw [_pick_first, h0]
      simp only [Bool.false_eq_true, if_false]
      exact ih.1 fun k hk => hall k (List.mem_cons_of_mem _ hk)
    · intro k hk
      rw [List.find?] at hk
      cases h0 : hasKey m k0 with
      | true =>
        rw [h0] at hk
        simp only [Option.some_inj] at hk
        subst hk
        rw [_pick_first, h0]
        simp
      | false =>
        rw [h0] at hk
        simp only at hk
        rw [_pick_first, h0]
        simp only [Bool.false_eq_true, if_false]
        exact ih.2 k hk

/-- C5 (witness): the amended theorem at the spec's own example shapes: a
key mapped to `0` counts as present (`{"apr": 0}` with keys
`["apy", "apr"]` resolves to `0`), and an unmatched key list yields `None`. -/
theorem C5_pick_first_spec_witness :
    _pick_first [("apr", Val.num 0)] ["apy", "apr"] = Val.num 0 ∧
    _pick_first [("apr", Val.num 0)] ["rate"] = Val.null :=
  ⟨(C5_pick_first_spec [("apr", Val.num 0)] ["apy", "apr"]).2 "apr" rfl,
   (C5_pick_first_spec [("apr", Val.num 0)] ["rate"]).1 (fun k hk => by
     simp only [List.mem_singleton] at hk
     subst hk
     rfl)⟩

/-- C6: on a list-shaped container (Coinbase), the adapter is the per-entry
`filterMap` of its loop body, and replacing any single entry by a malformed
one (one the loop body skips) loses at most one record, while inserting a
malformed entry loses none — all other valid entries are still emitted. -/
theorem C6_single_malformed_entry (l : List Val) (i : ℕ) (e : Val)
    (h : coinbaseEntry e = none) :
    fetch_coinbase (.dict [("data", .list l)]) = .ok (l.filterMap coinbaseEntry) ∧
    (l.filterMap coinbaseEntry).length ≤ ((l.set i e).filterMap coinbaseEntry).length + 1 ∧
    (l.filterMap coinbaseEntry).length ≤
      ((List.insertIdx i e l).filterMap coinbaseEntry).length := by
  refine ⟨?_, filterMap_length_set_ge _ l i e h, filterMap_length_insertIdx_ge _ l i e h⟩
  rw [fetch_coinbase.eq_def]
  simp [dataField, getv, List.lookup]

/-- C6 (witness): the theorem at the concrete payload
`{"data": [{"apy": 5}]}` with the malformed entry `null` put at index 0. -/
theorem C6_single_malformed_entry_witness :
    fetch_coinbase (.dict [("data", .list [.dict [("apy", .num 5)]])]) =
      .ok ([Val.dict [("apy", .num 5)]].filterMap coinbaseEntry) ∧
    ([Val.dict [("apy", .num 5)]].filterMap coinbaseEntry).length ≤
      (([Val.dict [("apy", .num 5)]].set 0 .null).filterMap coinbaseEntry).length + 1 ∧
    ([Val.dict [("apy", .num 5)]].filterMap coinbaseEntry).length ≤
      ((List.insertIdx 0 .null [Val.dict [("apy", .num 5)]]).filterMap coinbaseEntry).length :=
  C6_single_malformed_entry [Val.dict [("apy", .num 5)]] 0 .null rfl

/-- C7: `filter_low_risk` returns a sublist of its input (original relative
order, input untouched) containing exactly the records whose upper-cased
network label has one of the thirteen stablecoin keywords as a substring. -/
theorem C7_filter_low_risk_membership (records : List RateRecord) :
    List.Sublist (filter_low_risk records) records ∧
    ∀ r : RateRecord, r ∈ filter_low_risk records ↔
      r ∈ records ∧ ∃ kw ∈ (["USDC", "USDT", "DAI", "BUSD", "TUSD", "USDP", "GUSD",
          "USDD", "USTC", "EURT", "FRAX", "EURS", "LUSD"] : List String),
        kw.toList <:+: (pyUpper r.network).toList := by
  constructor
  · exact List.filter_sublist _
  · intro r
    simp [filter_low_risk, _is_stablecoin_network, STABLECOIN_KEYWORDS, List.mem_filter,
      List.any_eq_true]

/-- C8: `filter_low_risk` is idempotent. -/
theorem C8_filter_low_risk_idempotent (records : List RateRecord) :
    filter_low_risk (filter_low_risk records) = filter_low_risk records := by
  simp [filter_low_risk, List.filter_filter]

/-- C9 (counterexample): the claim says a payload whose `data` maps
`staking` to 0 with no truthy `total` makes the adapter raise, but when
`total` is present and falsy (`{"data": {"staking": 0, "total": 0}}`) the
chain `data.get("staking") or data.get("total")` evaluates to `0`, which is
not `None`, so the adapter yields one record with `rate = 0.0` instead of
raising. -/
theorem C9_rocket_pool_falsy_total_counterexample :
    fetch_rocket_pool (.dict [("data", .dict [("staking", .num 0), ("total", .num 0)])]) =
      .ok [{ provider := "Rocket Pool", network := "Ethereum", rate := 0, metric := "apr",
             source_url := ROCKET_POOL_URL,
             raw := .dict [("staking", .num 0), ("total", .num 0)] }] := rfl

/-- C9 (amended): with `staking` mapped to 0, the adapter raises
`RateFetchError` when `total` is absent (`None`), and emits a single record
whose rate is the value of `total` when `total` is a nonzero number; but a
present falsy `total` (e.g. 0) is passed through as the rate rather than
treated as missing. -/
theorem C9_rocket_pool_zero_staking (data : List (String × Val)) (q : ℚ)
    (h0 : getv data "staking" = .num 0) :
    (getv data "total" = .null →
      fetch_rocket_pool (.dict [("data", .dict data)]) =
        .error (.rateFetch "Rocket Pool response missing staking rate")) ∧
    (q ≠ 0 → getv data "total" = .num q →
      fetch_rocket_pool (.dict [("data", .dict data)]) =
        .ok [{ provider := "Rocket Pool", network := "Ethereum", rate := q,
               metric := "apr", source_url := ROCKET_POOL_URL, raw := .dict data }]) := by
  have hdf : dataField (.dict [("data", .dict data)]) "data" = .dict data := by
    simp [dataField, getv, List.lookup]
  refine ⟨fun h1 => ?_, fun hq h1 => ?_⟩
  · rw [fetch_rocket_pool.eq_def, hdf]
    simp [pyOr, h0, h1, truthy]
  · rw [fetch_rocket_pool.eq_def, hdf]
    simp [pyOr, h0, h1, truthy, hq, pyFloatE]

/-- C9 (witness): the amended theorem at `{"data": {"staking": 0}}` (raises)
and at `{"data": {"staking": 0, "total": 3.9}}` (emits the `total` value). -/
theorem C9_rocket_pool_zero_staking_witness :
    fetch_rocket_pool (.dict [("data", .dict [("staking", .num 0)])]) =
      .error (.rateFetch "Rocket Pool response missing staking rate") ∧
    fetch_rocket_pool (.dict [("data", .dict [("staking", .num 0), ("total", .num (39/10))])]) =
      .ok [{ provider := "Rocket Pool", network := "Ethereum", rate := 39/10,
             metric := "apr", source_url := ROCKET_POOL_URL,
             raw := .dict [("staking", .num 0), ("total", .num (39/10))] }] :=
  ⟨(C9_rocket_pool_zero_staking [("staking", .num 0)] 1 rfl).1 rfl,
   (C9_rocket_pool_zero_staking [("staking", .num 0), ("total", .num (39/10))] (39/10)
     rfl).2 (by norm_num) rfl⟩

/-- C10 (counterexample): the claim says a Kraken entry whose `apy`, `apr`
and `reward_apr` are each absent or 0 yields no record, but an entry whose
`reward_apr` is present and 0 ends the chain
`details.get("apy") or details.get("apr") or details.get("reward_apr")`
with the value `0`, which is not `None`, so
`{"result": {"DOT": {"reward_apr": 0}}}` yields one record with
`rate = 0.0`. -/
theorem C10_kraken_zero_reward_apr_counterexample :
    fetch_kraken (.dict [("result", .dict [("DOT", .dict [("reward_apr", .num 0)])])]) =
      .ok [{ provider := "Kraken", network := "DOT", rate := 0, metric := "apr",
             source_url := KRAKEN_URL, raw := .dict [("reward_apr", .num 0)] }] := rfl

/-- C10 (amended): the Kraken rate chain resolves by truthiness: an entry
whose `apy` is present mapping to 0 and whose `apr` is a nonzero number `q`
emits a record with rate `q`; an entry whose `apy` and `apr` are falsy and
whose `reward_apr` is absent yields no record (but a `reward_apr` present as
0 ends the chain with 0 and a rate-0 record is emitted). -/
theorem C10_kraken_truthy_rate_chain (d : List (String × Val)) (q : ℚ) :
    (getv d "apy" = .num 0 → getv d "apr" = .num q → q ≠ 0 →
      getv d "staking_asset" = .null →
      fetch_kraken (.dict [("result", .dict [("DOT", .dict d)])]) =
        .ok [{ provider := "Kraken", network := "DOT", rate := q, metric := "apr",
               source_url := KRAKEN_URL, raw := .dict d }]) ∧
    (truthy (getv d "apy") = false → truthy (getv d "apr") = false →
      getv d "reward_apr" = .null →
      fetch_kraken (.dict [("result", .dict [("DOT", .dict d)])]) = .ok []) := by
  have hdf : dataField (.dict [("result", .dict [("DOT", .dict d)])]) "result" =
      .dict [("DOT", .dict d)] := by
    simp [dataField, getv, List.lookup]
  refine ⟨fun h1 h2 hq h3 => ?_, fun h1 h2 h3 => ?_⟩
  · rw [fetch_kraken.eq_def, hdf]
    simp [krakenEntry, pyOr, truthy, h1, h2, h3, hq, pyStr, pyFloat, pyFloatE, Except.toOption]
  · rw [fetch_kraken.eq_def, hdf]
    simp [krakenEntry, pyOr, h1, h2, h3]

/-- C10 (witness): the amended theorem at
`{"result": {"DOT": {"apy": 0, "apr": 12}}}` (rate 12 from `apr`) and at
`{"result": {"DOT": {}}}` (no record). -/
theorem C10_kraken_truthy_rate_chain_witness :
    fetch_kraken (.dict [("result", .dict [("DOT", .dict [("apy", .num 0), ("apr", .num 12)])])]) =
      .ok [{ provider := "Kraken", network := "DOT", rate := 12, metric := "apr",
             source_url := KRAKEN_URL, raw := .dict [("apy", .num 0), ("apr", .num 12)] }] ∧
    fetch_kraken (.dict [("result", .dict [("DOT", .dict [])])]) = .ok [] :=
  ⟨(C10_kraken_truthy_rate_chain [("apy", .num 0), ("apr", .num 12)] 12).1 rfl rfl
     (by norm_num) rfl,
   (C10_kraken_truthy_rate_chain [] 0).2 rfl rfl rfl⟩
